import Mathlib

/-!
Verification of the `aws-web-ui` edge-delivery configuration.

The embedding covers:
* the CloudFront distribution configuration built by the `WebUI` construct
  (`lib/web-ui.ts`): cache policies, the ordered behavior table, the
  error-response remapping, and the props that feed them;
* the signed-URL issuer `SignedURLGenerator.generateSignedURL`
  (`utils/signed-url-generator.ts`): canonical policy document, JS
  whitespace stripping, base64url transport encoding, and the wire form;
* a verifier and a path-pattern resolver modelled from the specification,
  since resolution and token verification happen inside CloudFront and are
  not part of this repository's code.

Machine arithmetic is modelled with `Nat`/`Int`; bytes are `Nat` values
below 256 produced by an explicit UTF-8 encoder.
-/

namespace AWSWebUI

/-! ## Data model -/

/-- Origin of a behavior: the website bucket or the external login bucket. -/
inductive OriginId where
  | website
  | login
deriving DecidableEq, Repr

/-- `ViewerProtocolPolicy` values used by the construct. -/
inductive ViewerProtocol where
  | redirectToHTTPS
  | httpsOnly
deriving DecidableEq, Repr

/-- A CloudFront cache policy: min/default/max TTL in seconds. -/
structure CachePolicy where
  minTtl : Int
  defaultTtl : Int
  maxTtl : Int
deriving DecidableEq, Repr

/-- `DefaultCachePolicy` from `web-ui.ts`:
`minTtl = 0 s`, `defaultTtl = 5 min`, `maxTtl = 24 h`. -/
def defaultCachePolicy : CachePolicy :=
  { minTtl := 0, defaultTtl := 300, maxTtl := 86400 }

/-- `LongStorageCachePolicy` from `web-ui.ts`:
`minTtl = 365 d`, `defaultTtl = 720 d`, `maxTtl = 3650 d`. -/
def longStorageCachePolicy : CachePolicy :=
  { minTtl := 31536000, defaultTtl := 62208000, maxTtl := 315360000 }

/-- The invariant claimed for cache policies:
non-negative durations with `minTTL ≤ defaultTTL ≤ maxTTL`. -/
def CachePolicy.valid (p : CachePolicy) : Prop :=
  0 ≤ p.minTtl ∧ p.minTtl ≤ p.defaultTtl ∧ p.defaultTtl ≤ p.maxTtl

instance (p : CachePolicy) : Decidable p.valid := by
  unfold CachePolicy.valid
  infer_instance

/-- Modelled from the spec: the repository never constructs an invalid
cache policy, so the validating constructor (`InvalidPolicy` on
`minTTL > defaultTTL`, `defaultTTL > maxTTL`, or a negative duration) is
not present in the code; it is reproduced here from §4.1 of the spec. -/
def mkCachePolicy (minTtl defaultTtl maxTtl : Int) : Except String CachePolicy :=
  if minTtl < 0 ∨ defaultTtl < 0 ∨ maxTtl < 0 ∨ minTtl > defaultTtl ∨ defaultTtl > maxTtl then
    .error "InvalidPolicy"
  else
    .ok { minTtl := minTtl, defaultTtl := defaultTtl, maxTtl := maxTtl }

/-- A cache behavior: path pattern, origin, cache policy, viewer protocol
policy, and whether `trustedKeyGroups` is set (a signed token is required). -/
structure Behavior where
  pattern : String
  origin : OriginId
  cachePolicy : CachePolicy
  viewerProtocolPolicy : ViewerProtocol
  requireSignedToken : Bool
deriving DecidableEq, Repr

/-- The `defaultBehavior` of the distribution in `web-ui.ts`: website
origin, default cache policy, redirect-to-HTTPS, trusted key group set. -/
def defaultBehavior : Behavior :=
  { pattern := "*"
    origin := .website
    cachePolicy := defaultCachePolicy
    viewerProtocolPolicy := .redirectToHTTPS
    requireSignedToken := true }

/-- The `additionalBehaviors` record of `web-ui.ts`, in declaration order.
`requireSignedToken` is `true` exactly where the source sets
`trustedKeyGroups: [this.trustedKeyGroup]`. -/
def additionalBehaviors : List Behavior :=
  [ { pattern := "/login.html", origin := .login, cachePolicy := defaultCachePolicy,
      viewerProtocolPolicy := .redirectToHTTPS, requireSignedToken := false },
    { pattern := "/apps-login.html", origin := .login, cachePolicy := defaultCachePolicy,
      viewerProtocolPolicy := .httpsOnly, requireSignedToken := false },
    { pattern := "/eth-login.html", origin := .login, cachePolicy := defaultCachePolicy,
      viewerProtocolPolicy := .httpsOnly, requireSignedToken := false },
    { pattern := "/idpresponse.html", origin := .login, cachePolicy := defaultCachePolicy,
      viewerProtocolPolicy := .httpsOnly, requireSignedToken := false },
    { pattern := "/apps-idpresponse.html", origin := .login, cachePolicy := defaultCachePolicy,
      viewerProtocolPolicy := .httpsOnly, requireSignedToken := false },
    { pattern := "/favicon.png", origin := .website, cachePolicy := defaultCachePolicy,
      viewerProtocolPolicy := .redirectToHTTPS, requireSignedToken := false },
    { pattern := "/logo.png", origin := .website, cachePolicy := defaultCachePolicy,
      viewerProtocolPolicy := .redirectToHTTPS, requireSignedToken := false },
    { pattern := "/css/*", origin := .website, cachePolicy := longStorageCachePolicy,
      viewerProtocolPolicy := .httpsOnly, requireSignedToken := true },
    { pattern := "/css/chunk-vendors*", origin := .website, cachePolicy := longStorageCachePolicy,
      viewerProtocolPolicy := .httpsOnly, requireSignedToken := false },
    { pattern := "/js/*", origin := .website, cachePolicy := longStorageCachePolicy,
      viewerProtocolPolicy := .httpsOnly, requireSignedToken := true },
    { pattern := "/js/chunk-vendors*", origin := .website, cachePolicy := longStorageCachePolicy,
      viewerProtocolPolicy := .httpsOnly, requireSignedToken := false },
    { pattern := "/assets/*", origin := .website, cachePolicy := longStorageCachePolicy,
      viewerProtocolPolicy := .httpsOnly, requireSignedToken := true } ]

/-! ## Path-pattern resolution (modelled from the spec)

Resolution happens inside CloudFront, outside this repository; the spec
(§4.2) fixes the semantics: normalize the path, scan behaviors in
declaration order, exact-match patterns without a trailing `*`,
prefix-match the literal prefix of patterns with one, first match wins,
default behavior if none matches. -/

/-- Modelled from the spec: true JS-side resolution is CloudFront's; the
spec prescribes exact match for patterns without a trailing `*` and
literal-prefix match for patterns with one. -/
def patternMatches (pat path : String) : Bool :=
  match pat.data.getLast? with
  | some star =>
      if star = '*' then List.isPrefixOf pat.data.dropLast path.data
      else pat.data = path.data
  | none => pat.data = path.data

/-- Modelled from the spec: path normalization before matching — drop the
query string and fragment, ensure a leading slash. -/
def normalizePath (path : String) : String :=
  let kept := path.data.takeWhile (fun c => ¬ (c = '?' ∨ c = '#'))
  match kept with
  | [] => "/"
  | c :: _ => if c = '/' then String.mk kept else String.mk ('/' :: kept)

/-- Modelled from the spec: first-match-wins resolution over the ordered
behavior list, falling back to the default behavior. -/
def resolveBehavior (table : List Behavior) (dflt : Behavior) (path : String) : Behavior :=
  match table.find? (fun b => patternMatches b.pattern (normalizePath path)) with
  | some b => b
  | none => dflt

/-- Resolution against the table constructed by `web-ui.ts`. -/
def resolveWebUI (path : String) : Behavior :=
  resolveBehavior additionalBehaviors defaultBehavior path

/-! ## Props, error responses and the distribution configuration -/

/-- `WebUIProps` from `web-ui.ts`. Optional TypeScript props become
`Option`-typed fields. -/
structure WebUIProps where
  deploymentName : Option String
  aliases : Option (List String)
  acmCertificateArn : Option String
  viewersPublicKeyId : String
  loginBucketName : String
  OriginAccessIdentityName : String
  OriginAccessIdentityCanonicalUserId : String
  AppsLoginUrl : Option String
deriving DecidableEq, Repr

/-- JavaScript truthiness of an optional string prop, as tested by
`!!props.AppsLoginUrl`: `undefined` and the empty string are falsy. -/
def truthy : Option String → Bool
  | none => false
  | some s => ¬ (s = "")

/-- One entry of the distribution's `errorResponses` list. -/
structure ErrorResponse where
  httpStatus : Nat
  responseHttpStatus : Nat
  responsePagePath : String
deriving DecidableEq, Repr

/-- The `errorResponses` list of `web-ui.ts`: 404 is remapped to `200 /`,
403 to `200` with `/apps-login.html` when `!!props.AppsLoginUrl` holds and
`/login.html` otherwise. -/
def errorResponses (appsLoginUrl : Option String) : List ErrorResponse :=
  [ { httpStatus := 404, responseHttpStatus := 200, responsePagePath := "/" },
    { httpStatus := 403, responseHttpStatus := 200,
      responsePagePath := if truthy appsLoginUrl then "/apps-login.html" else "/login.html" } ]

/-- Modelled from the spec: applying the configured error responses to an
origin status (CloudFront's custom-error-response semantics are external
to the repository). A configured status is rewritten to the configured
response status and page path; any other status passes through unchanged
with no substituted page. -/
def mapStatus (cfg : List ErrorResponse) (status : Nat) : Nat × Option String :=
  match cfg.find? (fun e => e.httpStatus = status) with
  | some e => (e.responseHttpStatus, some e.responsePagePath)
  | none => (status, none)

/-- `Map` for the distribution built from the given `AppsLoginUrl` prop. -/
def mapWebUIStatus (appsLoginUrl : Option String) (status : Nat) : Nat × Option String :=
  mapStatus (errorResponses appsLoginUrl) status

/-- The part of the `Distribution` construction in `web-ui.ts` that is
derived from `WebUIProps`: certificate, root object, domain names, origin
identities, the trusted key group contents, the behavior table and the
error responses. -/
structure DistributionConfig where
  certificateArn : Option String
  defaultRootObject : String
  domainNames : Option (List String)
  loginBucketName : String
  originAccessIdentityName : String
  originAccessIdentityCanonicalUserId : String
  trustedKeyIds : List String
  defaultBehavior : Behavior
  additionalBehaviors : List Behavior
  priceClass : String
  errorResponses : List ErrorResponse
deriving DecidableEq, Repr

/-- The distribution configuration constructed by `web-ui.ts` from its
props. Only `AppsLoginUrl` influences the error responses; the behavior
table and cache policies are fixed. -/
def distributionConfig (props : WebUIProps) : DistributionConfig :=
  { certificateArn := props.acmCertificateArn
    defaultRootObject := "index.html"
    domainNames := props.aliases
    loginBucketName := props.loginBucketName
    originAccessIdentityName := props.OriginAccessIdentityName
    originAccessIdentityCanonicalUserId := props.OriginAccessIdentityCanonicalUserId
    trustedKeyIds := [props.viewersPublicKeyId]
    defaultBehavior := defaultBehavior
    additionalBehaviors := additionalBehaviors
    priceClass := "PRICE_CLASS_100"
    errorResponses := errorResponses props.AppsLoginUrl }

/-! ## Signed-URL issuance (`utils/signed-url-generator.ts`)

`generateSignedURL` builds the policy object, serializes it with
`JSON.stringify`, strips JavaScript whitespace (`replace(/\s/g, '')`),
base64-encodes policy and signature, applies the `+ → -`, `/ → _`,
`= → ''` replacements, and appends the three query parameters to the URL.
The RSA-SHA1 signature primitive is abstracted as a function from message
bytes to signature bytes. -/

/-- Lowercase hexadecimal digit, as produced by JavaScript string escapes. -/
def hexDigit (n : Nat) : Char :=
  "0123456789abcdef".data.getD (n % 16) '0'

/-- `JSON.stringify` escaping of a single character (ECMA-262
`QuoteJSONString`): quote and backslash get a backslash escape, the five
named control characters get their short escapes, the remaining control
characters below U+0020 get `\u00XX`, and everything else is unchanged. -/
def jsonEscapeChar (c : Char) : List Char :=
  if c = '"' then ['\\', '"']
  else if c = '\\' then ['\\', '\\']
  else if c.toNat = 8 then ['\\', 'b']
  else if c.toNat = 9 then ['\\', 't']
  else if c.toNat = 10 then ['\\', 'n']
  else if c.toNat = 12 then ['\\', 'f']
  else if c.toNat = 13 then ['\\', 'r']
  else if c.toNat < 32 then ['\\', 'u', '0', '0', hexDigit (c.toNat / 16), hexDigit (c.toNat % 16)]
  else [c]

/-- `JSON.stringify` of a string value: the escaped characters between
double quotes. -/
def jsonQuote (s : String) : List Char :=
  '"' :: (s.data.flatMap jsonEscapeChar ++ ['"'])

/-- Characters matched by JavaScript's `\s` regular-expression class
(`WhiteSpace` and `LineTerminator` code points). -/
def jsWhitespace (c : Char) : Bool :=
  let n := c.toNat
  n = 9 ∨ n = 10 ∨ n = 11 ∨ n = 12 ∨ n = 13 ∨ n = 32 ∨ n = 160 ∨ n = 5760 ∨
    (8192 ≤ n ∧ n ≤ 8202) ∨ n = 8232 ∨ n = 8233 ∨ n = 8239 ∨ n = 8287 ∨
    n = 12288 ∨ n = 65279

/-- `JSON.stringify(policy)` for the fixed policy object literal built in
`generateSignedURL`: object keys in insertion order (`Statement`,
`Resource`, `Condition`, `DateLessThan`, `AWS:EpochTime`), the URL quoted
per `QuoteJSONString`, the expiry as a decimal integer. -/
def policyJson (url : String) (expires : Int) : List Char :=
  "\x7b\"Statement\":[\x7b\"Resource\":".data ++ jsonQuote url ++
    ",\"Condition\":\x7b\"DateLessThan\":\x7b\"AWS:EpochTime\":".data ++
    (Int.repr expires).data ++ "\x7d\x7d\x7d]\x7d".data

/-- `policyString` in `generateSignedURL`:
`JSON.stringify(policy).replace(/\s/g, '')`. -/
def canonicalPolicyString (url : String) (expires : Int) : String :=
  String.mk ((policyJson url expires).filter (fun c => ¬ jsWhitespace c))

/-- UTF-8 encoding of one character (`Buffer.from(string)` and
`Sign#update(string)` both use UTF-8). -/
def utf8Char (c : Char) : List Nat :=
  let n := c.toNat
  if n < 128 then [n]
  else if n < 2048 then [192 + n / 64, 128 + n % 64]
  else if n < 65536 then [224 + n / 4096, 128 + n / 64 % 64, 128 + n % 64]
  else [240 + n / 262144, 128 + n / 4096 % 64, 128 + n / 64 % 64, 128 + n % 64]

/-- UTF-8 encoding of a string as a byte list. -/
def utf8Encode (s : String) : List Nat :=
  s.data.flatMap utf8Char

/-- The standard base64 alphabet. -/
def base64Chars : List Char :=
  "ABCDEFGHIJKLMNOPQRSTUVWXYZabcdefghijklmnopqrstuvwxyz0123456789+/".data

/-- The base64url alphabet (`-` and `_` in place of `+` and `/`). -/
def base64UrlChars : List Char :=
  "ABCDEFGHIJKLMNOPQRSTUVWXYZabcdefghijklmnopqrstuvwxyz0123456789-_".data

/-- Character of the standard base64 alphabet at a 6-bit index. -/
def b64Char (i : Nat) : Char :=
  base64Chars.getD (i % 64) 'A'

/-- Character of the base64url alphabet at a 6-bit index. -/
def b64UrlChar (i : Nat) : Char :=
  base64UrlChars.getD (i % 64) 'A'

/-- Standard base64 encoding with `=` padding, as produced by
`Buffer#toString('base64')` and `Sign#sign(key, 'base64')`. -/
def base64Encode : List Nat → List Char
  | [] => []
  | [a] => [b64Char (a / 4), b64Char (a % 4 * 16), '=', '=']
  | [a, b] => [b64Char (a / 4), b64Char (a % 4 * 16 + b / 16), b64Char (b % 16 * 4), '=']
  | a :: b :: c :: rest =>
      b64Char (a / 4) :: b64Char (a % 4 * 16 + b / 16) ::
        b64Char (b % 16 * 4 + c / 64) :: b64Char (c % 64) :: base64Encode rest

/-- Base64url encoding without padding — the encoding named by the spec
for the wire form of a token. -/
def base64UrlEncodeNoPad : List Nat → List Char
  | [] => []
  | [a] => [b64UrlChar (a / 4), b64UrlChar (a % 4 * 16)]
  | [a, b] => [b64UrlChar (a / 4), b64UrlChar (a % 4 * 16 + b / 16), b64UrlChar (b % 16 * 4)]
  | a :: b :: c :: rest =>
      b64UrlChar (a / 4) :: b64UrlChar (a % 4 * 16 + b / 16) ::
        b64UrlChar (b % 16 * 4 + c / 64) :: b64UrlChar (c % 64) :: base64UrlEncodeNoPad rest

/-- `replace(/\+/g, '-')` on one character. -/
def replacePlus (c : Char) : Char :=
  if c = '+' then '-' else c

/-- `replace(/\//g, '_')` on one character. -/
def replaceSlash (c : Char) : Char :=
  if c = '/' then '_' else c

/-- The transport rewriting applied by `generateSignedURL` to a base64
string: `.replace(/\+/g, '-').replace(/\//g, '_').replace(/=/g, '')`. -/
def jsBase64UrlOf (cs : List Char) : List Char :=
  ((cs.map replacePlus).map replaceSlash).filter (fun c => ¬ (c = '='))

/-- `SignedURLGenerator.generateSignedURL(url, expiresIn)`.

`sign` abstracts `crypto.createSign('RSA-SHA1') … .sign(privateKey)` as a
map from message bytes to raw signature bytes; `publicKeyId` is the
generator's key-pair id; `now` stands for `Math.floor(Date.now() / 1000)`.
The function is `Option`-valued to record where the source could fail: it
performs no input validation, so every input produces `some` result. -/
def generateSignedURL (sign : List Nat → List Nat) (publicKeyId url : String)
    (expiresIn now : Int) : Option String :=
  let expires := now + expiresIn
  let policyString := canonicalPolicyString url expires
  let policyBase64 := String.mk (jsBase64UrlOf (base64Encode (utf8Encode policyString)))
  let signature := String.mk (jsBase64UrlOf (base64Encode (sign (utf8Encode policyString))))
  some (url ++ "?Policy=" ++ policyBase64 ++ "&Signature=" ++ signature ++
    "&Key-Pair-Id=" ++ publicKeyId)

/-- The signed URL produced for a given expiry epoch: the body of
`generateSignedURL` with the expiry supplied directly. -/
def signedUrlFor (sign : List Nat → List Nat) (publicKeyId url : String)
    (expires : Int) : String :=
  url ++ "?Policy=" ++ String.mk (jsBase64UrlOf (base64Encode (utf8Encode (canonicalPolicyString url expires)))) ++
    "&Signature=" ++ String.mk (jsBase64UrlOf (base64Encode (sign (utf8Encode (canonicalPolicyString url expires))))) ++
    "&Key-Pair-Id=" ++ publicKeyId

/-! ## Structured tokens and verification (modelled from the spec) -/

/-- A signed access token in structured form (spec §3). -/
structure SignedAccessToken where
  resourceURL : String
  expiresAtEpochSeconds : Int
  keyPairId : String
  signature : List Nat
deriving DecidableEq, Repr

/-- The structured token issued by `generateSignedURL`: the same policy
bytes are signed, the expiry is `now + expiresIn`, and the key-pair id is
the generator's `publicKeyId`. -/
def signToken (sign : List Nat → List Nat) (publicKeyId url : String)
    (expiresIn now : Int) : SignedAccessToken :=
  { resourceURL := url
    expiresAtEpochSeconds := now + expiresIn
    keyPairId := publicKeyId
    signature := sign (utf8Encode (canonicalPolicyString url (now + expiresIn))) }

/-- Verification failure kinds (spec §4.3). -/
inductive AuthError where
  | unknownKey
  | malformed
  | badSignature
  | expired
  | resourceMismatch
deriving DecidableEq, Repr

/-- Modelled from the spec: token verification is performed by CloudFront,
not by code in this repository. Following §4.3: resolve the public key for
the presented key-pair id (`UnknownKey` if absent), recompute the
canonical policy document from the token's fields, check the signature
(`BadSignature`), check expiry — the policy's `DateLessThan` condition
admits the request only while `now < expiresAtEpochSeconds` (`Expired`) —
and check the resource (`ResourceMismatch`). `verify` abstracts RSA-SHA1
signature verification against a public key. Decoding failures
(`Malformed`) cannot arise on the structured form. -/
def verifyToken {K : Type} (keys : List (String × K))
    (verify : K → List Nat → List Nat → Bool) (tok : SignedAccessToken)
    (requestedURL : String) (now : Int) : Except AuthError Unit :=
  match keys.find? (fun kv => kv.1 = tok.keyPairId) with
  | none => .error .unknownKey
  | some kv =>
      let msg := utf8Encode (canonicalPolicyString tok.resourceURL tok.expiresAtEpochSeconds)
      if ¬ verify kv.2 msg tok.signature then .error .badSignature
      else if now < tok.expiresAtEpochSeconds then
        if tok.resourceURL = requestedURL then .ok () else .error .resourceMismatch
      else .error .expired

/-- The byte string the spec requires for the canonical policy document:
the literal JSON template with the URL and expiry substituted verbatim. -/
def specPolicyTemplate (url : String) (expires : Int) : String :=
  "\x7b\"Statement\":[\x7b\"Resource\":\"" ++ url ++
    "\",\"Condition\":\x7b\"DateLessThan\":\x7b\"AWS:EpochTime\":" ++
    Int.repr expires ++ "\x7d\x7d\x7d]\x7d"

/-! ## Theorems: distribution configuration -/

/-- C1. The behavior table of `web-ui.ts` declares `/js/*` before
`/js/chunk-vendors*`, so under the spec's first-match-wins resolution the
request `/js/chunk-vendors/app.js` resolves to the `/js/*` rule, which
requires a signed token — not to the public `/js/chunk-vendors*` rule the
claim (and the repository's architecture documentation, which labels
vendor chunks "public") promises. -/
theorem resolve_js_chunk_vendors_requires_token :
    resolveWebUI "/js/chunk-vendors/app.js" =
      { pattern := "/js/*", origin := .website, cachePolicy := longStorageCachePolicy,
        viewerProtocolPolicy := .httpsOnly, requireSignedToken := true } ∧
    (resolveWebUI "/js/chunk-vendors/app.js").requireSignedToken = true ∧
    ¬ (resolveWebUI "/js/chunk-vendors/app.js").pattern = "/js/chunk-vendors*" := by
  decide

/-- C2. The error-response mapping of the constructed distribution:
404 maps to `(200, "/")` for every configuration; 403 maps to
`(200, "/login.html")` when `AppsLoginUrl` is not truthy and to
`(200, "/apps-login.html")` when it is; every other status passes through
unchanged because no error response is configured for it. -/
theorem error_response_mapping :
    (∀ a : Option String, mapWebUIStatus a 404 = (200, some "/")) ∧
    (∀ a : Option String, truthy a = false →
      mapWebUIStatus a 403 = (200, some "/login.html")) ∧
    (∀ a : Option String, truthy a = true →
      mapWebUIStatus a 403 = (200, some "/apps-login.html")) ∧
    (∀ (a : Option String) (s : Nat), ¬ s = 404 → ¬ s = 403 →
      mapWebUIStatus a s = (s, none)) := by
  refine ⟨fun a => rfl, fun a h => ?_, fun a h => ?_, fun a s h4 h3 => ?_⟩
  · simp [mapWebUIStatus, mapStatus, errorResponses, List.find?, h]
  · simp [mapWebUIStatus, mapStatus, errorResponses, List.find?, h]
  · have e1 : (404 = s) = False := eq_false fun hs => h4 hs.symm
    have e2 : (403 = s) = False := eq_false fun hs => h3 hs.symm
    simp [mapWebUIStatus, mapStatus, errorResponses, List.find?, e1, e2]

/-- C2 witness: the mapping evaluated at concrete configurations and
statuses. -/
theorem error_response_mapping_witness :
    mapWebUIStatus none 404 = (200, some "/") ∧
    mapWebUIStatus none 403 = (200, some "/login.html") ∧
    mapWebUIStatus (some "https://apps.example.com") 403 = (200, some "/apps-login.html") ∧
    mapWebUIStatus none 500 = (500, none) :=
  ⟨error_response_mapping.1 none,
   error_response_mapping.2.1 none (by decide),
   error_response_mapping.2.2.1 (some "https://apps.example.com") (by decide),
   error_response_mapping.2.2.2 none 500 (by decide) (by decide)⟩

/-- C7. `/assets/logo.png` resolves to the `/assets/*` rule: signed token
required, long-storage cache policy. A path matching no explicit pattern
resolves to the default behavior, which requires a signed token and uses
the default cache policy with its 5-minute (300 s) default TTL. -/
theorem assets_and_default_resolution :
    (resolveWebUI "/assets/logo.png").requireSignedToken = true ∧
    (resolveWebUI "/assets/logo.png").cachePolicy = longStorageCachePolicy ∧
    (∀ path : String,
      (∀ b ∈ additionalBehaviors, patternMatches b.pattern (normalizePath path) = false) →
      resolveWebUI path = defaultBehavior) ∧
    defaultBehavior.requireSignedToken = true ∧
    defaultBehavior.cachePolicy = defaultCachePolicy ∧
    defaultCachePolicy.defaultTtl = 300 := by
  refine ⟨by decide, by decide, fun path h => ?_, by decide, by decide, by decide⟩
  unfold resolveWebUI resolveBehavior
  have hn : additionalBehaviors.find?
      (fun b => patternMatches b.pattern (normalizePath path)) = none :=
    List.find?_eq_none.mpr fun b hb => by simp [h b hb]
  rw [hn]

/-- C7 witness: `/index.html` matches no explicit pattern and resolves to
the default behavior. -/
theorem assets_and_default_resolution_witness :
    resolveWebUI "/index.html" = defaultBehavior :=
  assets_and_default_resolution.2.2.1 "/index.html" (by decide)

/-- C8. Both cache policies constructed by `web-ui.ts` satisfy the
invariant `0 ≤ minTTL ≤ defaultTTL ≤ maxTTL`; the validating constructor
modelled from the spec accepts exactly these policies and rejects any
violating construction with `InvalidPolicy`. -/
theorem cache_policy_invariants :
    defaultCachePolicy.valid ∧ longStorageCachePolicy.valid ∧
    mkCachePolicy 0 300 86400 = .ok defaultCachePolicy ∧
    mkCachePolicy 31536000 62208000 315360000 = .ok longStorageCachePolicy ∧
    (∀ a b c : Int, (a < 0 ∨ b < 0 ∨ c < 0 ∨ a > b ∨ b > c) →
      mkCachePolicy a b c = .error "InvalidPolicy") := by
  refine ⟨by decide, by decide, ?_, ?_, fun a b c h => ?_⟩
  · rw [mkCachePolicy, if_neg (by decide)]; rfl
  · rw [mkCachePolicy, if_neg (by decide)]; rfl
  · rw [mkCachePolicy, if_pos h]

/-- C8 witness: a construction with `minTTL > defaultTTL` fails with
`InvalidPolicy`. -/
theorem cache_policy_invariants_witness :
    mkCachePolicy 500 300 86400 = .error "InvalidPolicy" :=
  cache_policy_invariants.2.2.2.2 500 300 86400 (by decide)

/-- C9. Noninterference of the `AppsLoginUrl` string: two prop records
that differ only in the value of a truthy `AppsLoginUrl` produce the same
distribution configuration — only truthiness selects the 403 fallback
page, and the string's content flows nowhere else. -/
theorem apps_login_url_noninterference (p : WebUIProps) (u1 u2 : String)
    (h1 : ¬ u1 = "") (h2 : ¬ u2 = "") :
    distributionConfig { p with AppsLoginUrl := some u1 } =
      distributionConfig { p with AppsLoginUrl := some u2 } := by
  simp [distributionConfig, errorResponses, truthy, h1, h2]

/-- C9 witness: two concrete prop records differing only in the (truthy)
`AppsLoginUrl` string yield identical distribution configurations. -/
theorem apps_login_url_noninterference_witness :
    distributionConfig
      { deploymentName := none, aliases := none, acmCertificateArn := none,
        viewersPublicKeyId := "K2ABCDEFGHIJ", loginBucketName := "login-bucket",
        OriginAccessIdentityName := "oai-name",
        OriginAccessIdentityCanonicalUserId := "canonical-user",
        AppsLoginUrl := some "https://apps.example.com/login" } =
    distributionConfig
      { deploymentName := none, aliases := none, acmCertificateArn := none,
        viewersPublicKeyId := "K2ABCDEFGHIJ", loginBucketName := "login-bucket",
        OriginAccessIdentityName := "oai-name",
        OriginAccessIdentityCanonicalUserId := "canonical-user",
        AppsLoginUrl := some "https://apps.example.com/other" } :=
  apps_login_url_noninterference
    { deploymentName := none, aliases := none, acmCertificateArn := none,
      viewersPublicKeyId := "K2ABCDEFGHIJ", loginBucketName := "login-bucket",
      OriginAccessIdentityName := "oai-name",
      OriginAccessIdentityCanonicalUserId := "canonical-user",
      AppsLoginUrl := none }
    "https://apps.example.com/login" "https://apps.example.com/other"
    (by decide) (by decide)

/-- C10. Every behavior whose origin is the login bucket has no trusted
key group (`requireSignedToken = false`), and those behaviors are exactly
the five authentication pages. -/
theorem login_origin_behaviors_unsigned :
    (∀ b ∈ additionalBehaviors, b.origin = OriginId.login →
      b.requireSignedToken = false) ∧
    (additionalBehaviors.filter fun b => b.origin = OriginId.login).map Behavior.pattern =
      ["/login.html", "/apps-login.html", "/eth-login.html",
       "/idpresponse.html", "/apps-idpresponse.html"] := by
  decide

/-- C10 witness: the `/login.html` behavior is in the table, has login
origin, and requires no signed token. -/
theorem login_origin_behaviors_unsigned_witness :
    ({ pattern := "/login.html", origin := .login, cachePolicy := defaultCachePolicy,
       viewerProtocolPolicy := .redirectToHTTPS, requireSignedToken := false } :
      Behavior).requireSignedToken = false :=
  login_origin_behaviors_unsigned.1
    { pattern := "/login.html", origin := .login, cachePolicy := defaultCachePolicy,
      viewerProtocolPolicy := .redirectToHTTPS, requireSignedToken := false }
    (by decide) (by decide)

/-! ## Transport encoding lemmas -/

/-- Entry-wise relation between the two alphabets: the `+ → -`, `/ → _`
replacements carry the standard table to the url-safe table, and the
url-safe table never contains the padding character. -/
theorem b64_table_replacement :
    ∀ j < 64,
      replaceSlash (replacePlus (base64Chars.getD j 'A')) = base64UrlChars.getD j 'A' ∧
      ¬ (base64UrlChars.getD j 'A' = '=') := by
  decide

/-- Unfolding the transport rewriting over one character. -/
theorem jsBase64UrlOf_cons (c : Char) (cs : List Char) :
    jsBase64UrlOf (c :: cs) =
      if replaceSlash (replacePlus c) = '=' then jsBase64UrlOf cs
      else replaceSlash (replacePlus c) :: jsBase64UrlOf cs := by
  by_cases h : replaceSlash (replacePlus c) = '=' <;>
    simp [jsBase64UrlOf, h]

/-- The transport rewriting keeps an alphabet character, rewritten to the
url-safe alphabet. -/
theorem jsBase64UrlOf_b64Char (i : Nat) (cs : List Char) :
    jsBase64UrlOf (b64Char i :: cs) = b64UrlChar i :: jsBase64UrlOf cs := by
  have h := b64_table_replacement (i % 64) (Nat.mod_lt _ (by decide))
  rw [jsBase64UrlOf_cons]
  unfold b64Char b64UrlChar
  rw [h.1, if_neg h.2]

/-- The transport rewriting removes a padding character. -/
theorem jsBase64UrlOf_pad (cs : List Char) :
    jsBase64UrlOf ('=' :: cs) = jsBase64UrlOf cs := by
  rw [jsBase64UrlOf_cons]
  simp [replacePlus, replaceSlash]

theorem jsBase64UrlOf_nil : jsBase64UrlOf [] = [] := rfl

/-- The composite transport encoding of `generateSignedURL` — standard
base64 followed by the three `replace` calls — is exactly unpadded
base64url. -/
theorem jsBase64UrlOf_base64Encode (bs : List Nat) :
    jsBase64UrlOf (base64Encode bs) = base64UrlEncodeNoPad bs := by
  induction bs using base64Encode.induct <;>
    simp [base64Encode, base64UrlEncodeNoPad, jsBase64UrlOf_b64Char,
      jsBase64UrlOf_pad, jsBase64UrlOf_nil, *]

/-! ## Theorems: signed-URL issuance -/

/-- C5 counterexample. At `ttl = -5` (≤ 0) the issuer does not fail: the
source performs no TTL validation, so a signed URL is still produced
(with an already-elapsed expiry `now - 5`). -/
theorem sign_nonpositive_ttl_succeeds :
    (-5 : Int) ≤ 0 ∧
    ¬ (generateSignedURL (fun bs => bs) "K2EXAMPLE" "https://example.com/app.html"
        (-5) 1000 = none) := by
  constructor
  · decide
  · simp [generateSignedURL]

/-- C5 amended. The issuer never fails: for every `ttl` — positive or not
— it returns a signed URL whose embedded expiry is `now + ttl`, and the
structured token it issues carries `expiresAtEpochSeconds = now + ttl`. -/
theorem sign_total_with_expiry (sign : List Nat → List Nat) (kid url : String)
    (ttl now : Int) :
    generateSignedURL sign kid url ttl now = some (signedUrlFor sign kid url (now + ttl)) ∧
    (signToken sign kid url ttl now).expiresAtEpochSeconds = now + ttl :=
  ⟨rfl, rfl⟩

/-- C6. The wire form of an issued token: the resource URL with query
parameters `Policy` (unpadded base64url of the canonical policy
document), `Signature` (unpadded base64url of the raw signature over the
canonical policy bytes), and `Key-Pair-Id` (the key identifier). -/
theorem signed_url_wire_format (sign : List Nat → List Nat) (kid url : String)
    (ttl now : Int) :
    generateSignedURL sign kid url ttl now =
      some (url ++ "?Policy=" ++
        String.mk (base64UrlEncodeNoPad (utf8Encode (canonicalPolicyString url (now + ttl)))) ++
        "&Signature=" ++
        String.mk (base64UrlEncodeNoPad (sign (utf8Encode (canonicalPolicyString url (now + ttl))))) ++
        "&Key-Pair-Id=" ++ kid) := by
  simp [generateSignedURL, jsBase64UrlOf_base64Encode]

/-! ## Canonical policy document lemmas -/

/-- A character of a URL that survives the issuer's serialization
verbatim: printable (not below U+0020, hence not subject to a control
escape), not JavaScript whitespace (hence not removed by
`replace(/\s/g, '')`), and neither `"` nor `\` (hence not escaped by
`JSON.stringify`). -/
def PlainUrlChar (c : Char) : Prop :=
  32 ≤ c.toNat ∧ jsWhitespace c = false ∧ ¬ (c = '"') ∧ ¬ (c = '\\')

instance (c : Char) : Decidable (PlainUrlChar c) := by
  unfold PlainUrlChar
  infer_instance

/-- `JSON.stringify` escapes nothing in a plain character. -/
theorem jsonEscapeChar_plain (c : Char) (h32 : 32 ≤ c.toNat)
    (hq : ¬ (c = '"')) (hbs : ¬ (c = '\\')) : jsonEscapeChar c = [c] := by
  unfold jsonEscapeChar
  rw [if_neg hq, if_neg hbs, if_neg (by omega), if_neg (by omega), if_neg (by omega),
    if_neg (by omega), if_neg (by omega), if_neg (by omega)]

/-- `JSON.stringify` string escaping is the identity on plain strings. -/
theorem flatMap_jsonEscape_plain (l : List Char) (hl : ∀ c ∈ l, PlainUrlChar c) :
    l.flatMap jsonEscapeChar = l := by
  induction l with
  | nil => rfl
  | cons a t ih =>
      obtain ⟨h32, hws, hq, hbs⟩ := hl a (List.mem_cons_self a t)
      simp [jsonEscapeChar_plain a h32 hq hbs,
        ih fun c hc => hl c (List.mem_cons_of_mem a hc)]

/-- Filtering out JavaScript whitespace is the identity on a
whitespace-free character list. -/
theorem filter_ws_eq_self (l : List Char) (hl : ∀ c ∈ l, jsWhitespace c = false) :
    l.filter (fun c => !jsWhitespace c) = l :=
  List.filter_eq_self.mpr fun c hc => by simp [hl c hc]

/-- Decimal digits are not JavaScript whitespace. -/
theorem digitChar_not_ws : ∀ m < 10, jsWhitespace (Nat.digitChar m) = false := by
  decide

/-- `Nat.toDigitsCore` in base 10 produces no JavaScript whitespace. -/
theorem toDigitsCore_not_ws (fuel : Nat) :
    ∀ (n : Nat) (acc : List Char), (∀ c ∈ acc, jsWhitespace c = false) →
      ∀ c ∈ Nat.toDigitsCore 10 fuel n acc, jsWhitespace c = false := by
  induction fuel with
  | zero =>
      intro n acc hacc c hc
      simp only [Nat.toDigitsCore] at hc
      exact hacc c hc
  | succ f ih =>
      intro n acc hacc c hc
      simp only [Nat.toDigitsCore] at hc
      have hd : jsWhitespace (Nat.digitChar (n % 10)) = false :=
        digitChar_not_ws (n % 10) (Nat.mod_lt n (by omega))
      by_cases h0 : n / 10 = 0
      · rw [if_pos h0] at hc
        rcases List.mem_cons.mp hc with hc1 | hc2
        · rw [hc1]; exact hd
        · exact hacc c hc2
      · rw [if_neg h0] at hc
        refine ih (n / 10) (Nat.digitChar (n % 10) :: acc) ?_ c hc
        intro d hdmem
        rcases List.mem_cons.mp hdmem with hd1 | hd2
        · rw [hd1]; exact hd
        · exact hacc d hd2

/-- The decimal rendering of an integer contains no JavaScript
whitespace. -/
theorem int_repr_not_ws (e : Int) : ∀ c ∈ (Int.repr e).data, jsWhitespace c = false := by
  cases e with
  | ofNat m =>
      intro c hc
      exact toDigitsCore_not_ws (m + 1) m [] (by intro d hd; cases hd) c hc
  | negSucc m =>
      intro c hc
      simp only [Int.repr, String.data_append] at hc
      rcases List.mem_append.mp hc with hc1 | hc2
      · have : c = '-' := by
          cases hc1 with
          | head => rfl
          | tail _ h => cases h
        rw [this]; decide
      · exact toDigitsCore_not_ws (m + 2) (m + 1) [] (by intro d hd; cases hd) c hc2

/-! ## Theorems: canonical policy document -/

/-- C3 counterexample. For the URL `"a b"` — which contains a space — the
issuer's whitespace strip also removes the space inside the resource URL,
so the produced policy document is not the claimed template with the URL
substituted verbatim. -/
theorem canonical_policy_space_counterexample :
    ¬ (canonicalPolicyString "a b" 1000 = specPolicyTemplate "a b" 1000) := by
  decide

/-- C3 amended. For every URL whose characters are printable, not
JavaScript whitespace, and neither `"` nor `\`, and every integer expiry,
the canonical policy document is exactly the claimed byte string
`{"Statement":[{"Resource":"<url>","Condition":{"DateLessThan":{"AWS:EpochTime":<int>}}}]}`
with the URL and expiry substituted. -/
theorem canonical_policy_template (url : String) (expires : Int)
    (h : ∀ c ∈ url.data, PlainUrlChar c) :
    canonicalPolicyString url expires = specPolicyTemplate url expires := by
  apply String.ext
  have hws : ∀ c ∈ url.data, jsWhitespace c = false := fun c hc => (h c hc).2.1
  simp only [canonicalPolicyString, policyJson, jsonQuote, specPolicyTemplate,
    String.data_append]
  rw [flatMap_jsonEscape_plain url.data h]
  rw [show ('"' :: (url.data ++ ['"'])) = ['"'] ++ url.data ++ ['"'] from by simp]
  simp only [List.filter_append]
  simp +decide []
  rw [filter_ws_eq_self url.data hws,
    filter_ws_eq_self (Int.repr expires).data (int_repr_not_ws expires)]

/-- C3 amended witness: a concrete plain URL and expiry produce exactly
the template. -/
theorem canonical_policy_template_witness :
    canonicalPolicyString "https://example.com/app.html" 1700000000 =
      specPolicyTemplate "https://example.com/app.html" 1700000000 :=
  canonical_policy_template "https://example.com/app.html" 1700000000 (by decide)

/-! ## Theorems: sign/verify round trip -/

/-- C4. Round trip: for any trusted key set resolving the issuer's
key-pair id to a public key matching the signing key (`verify pub m
(sign m)` holds for every message), any URL, and any `ttl > 0`, the
spec-modelled verifier accepts the token issued by the generator, and
immediately after signing `now < expiresAtEpochSeconds`. -/
theorem sign_verify_roundtrip {K : Type} (keys : List (String × K))
    (verify : K → List Nat → List Nat → Bool) (sign : List Nat → List Nat)
    (pub : K) (kid url : String) (ttl now : Int)
    (hk : keys.find? (fun kv => kv.1 = kid) = some (kid, pub))
    (hv : ∀ m, verify pub m (sign m) = true) (ht : 0 < ttl) :
    verifyToken keys verify (signToken sign kid url ttl now) url now = .ok () ∧
    now < (signToken sign kid url ttl now).expiresAtEpochSeconds := by
  have hlt : now < now + ttl := by omega
  constructor
  · simp [verifyToken, signToken, hk, hv, hlt]
  · simp [signToken]
    omega

/-- C4 witness: a concrete key pair (modelled as signature = message,
verification = equality), key set, URL, TTL and clock. -/
theorem sign_verify_roundtrip_witness :
    verifyToken [("K2EXAMPLE", ())] (fun _ m s => m = s)
        (signToken (fun m => m) "K2EXAMPLE" "https://example.com/app.html" 3600 1700000000)
        "https://example.com/app.html" 1700000000 = .ok () ∧
    (1700000000 : Int) <
      (signToken (fun m => m) "K2EXAMPLE" "https://example.com/app.html"
        3600 1700000000).expiresAtEpochSeconds :=
  sign_verify_roundtrip [("K2EXAMPLE", ())] (fun _ m s => m = s) (fun m => m) ()
    "K2EXAMPLE" "https://example.com/app.html" 3600 1700000000
    (by decide) (fun m => by simp) (by decide)

end AWSWebUI
